import Mathlib

/-!
Shallow embedding of the SIMD capability-probing build planner of
pyopal (setup.py): platform identification, the autotools-style
probe, toolchain flag maps, toggle filtering, the variant selection
filter and the empty-plan error, the debug/release compile arguments,
and the vendored-file patch step.
-/

namespace PyopalSetup

/-- The four SIMD instruction-set extensions handled by setup.py
(keys of the simd dictionaries initialized in finalize_options). -/
inductive Simd where
  | AVX2
  | SSE2
  | SSE4
  | NEON
deriving DecidableEq, Repr

/-- Normalized target CPU families produced by the pattern match on
platform.machine at setup.py lines 40-52 (None becomes unknown). -/
inductive TargetCpu where
  | mips
  | aarch64
  | arm
  | x86
  | ppc
  | unknown
deriving DecidableEq, Repr

/-- Prefix test on the character lists of two strings (used to model
anchored regular-expression matching, since re.match anchors the
pattern at the start of the machine string). -/
def strPre (pre s : String) : Bool :=
  pre.data.isPrefixOf s.data

/-- Suffix test on the character lists of two strings. -/
def strSuf (suf s : String) : Bool :=
  suf.data.isSuffixOf s.data

/-- The TARGET_CPU computation (setup.py lines 40-52): each regular
expression is anchored at the start of the machine string, so the
branches test prefixes, full equality for aarch64 or arm64, and the
four-character pattern i.86 for 32-bit Intel machines. -/
def targetCpuOf (machine : String) : TargetCpu :=
  if strPre "mips" machine then TargetCpu.mips
  else if machine.data = "aarch64".data ∨ machine.data = "arm64".data then TargetCpu.aarch64
  else if strPre "arm" machine then TargetCpu.arm
  else if strPre "x86_64" machine || strPre "AMD64" machine
      || strPre "amd64" machine
      || (machine.data.length == 4 && strPre "i" machine && strSuf "86" machine)
    then TargetCpu.x86
  else if strPre "powerpc" machine || strPre "ppc" machine then TargetCpu.ppc
  else TargetCpu.unknown

/-- Sanity of the platform identifier on common machine strings. -/
theorem targetCpuOf_examples :
    targetCpuOf "x86_64" = TargetCpu.x86 ∧
    targetCpuOf "AMD64" = TargetCpu.x86 ∧
    targetCpuOf "i686" = TargetCpu.x86 ∧
    targetCpuOf "aarch64" = TargetCpu.aarch64 ∧
    targetCpuOf "arm64" = TargetCpu.aarch64 ∧
    targetCpuOf "armv7l" = TargetCpu.arm ∧
    targetCpuOf "ppc64le" = TargetCpu.ppc ∧
    targetCpuOf "mips64" = TargetCpu.mips ∧
    targetCpuOf "riscv64" = TargetCpu.unknown := by
  decide

/-! ## The capability probe (build_ext._check_simd_generic, lines 171-217)

The probe writes a synthetic test source, then inside a try block
compiles it, links it, and runs the produced binary with check=True.
The except clauses catch exactly CompileError (returning False) and
subprocess.CalledProcessError (returning True); the else branch
returns True.  Every other exception - a LinkError from
link_executable, or the OSError that subprocess.run raises when the
binary cannot be launched at all - is not caught and propagates after
the finally block has run. -/

/-- Outcome of self.compiler.compile on the test source: distutils
either returns the list of created object files or raises
CompileError without creating them. -/
inductive CompileOutcome where
  | success (objs : List String)
  | compileError
deriving DecidableEq, Repr

/-- Outcome of self.compiler.link_executable: on failure distutils
raises LinkError, which is not a CompileError. -/
inductive LinkOutcome where
  | success
  | linkError
deriving DecidableEq, Repr

/-- Outcome of subprocess.run([binfile], check=True): the process may
run to completion with some exit code (check=True raises
CalledProcessError when the code is nonzero), or fail to launch, in
which case subprocess.run raises OSError (for instance an exec format
error for a binary of a foreign architecture). -/
inductive RunOutcome where
  | exited (code : Int)
  | launchFailure
deriving DecidableEq, Repr

/-- The Python exceptions that can escape the try block of
_check_simd_generic: CompileError and CalledProcessError are caught,
so only a link failure or a launch failure propagates. -/
inductive PyExc where
  | linkError
  | osError
deriving DecidableEq, Repr

/-- Return value of _check_simd_generic as a function of the outcomes
of its three fallible steps (the list of object files returned by a
successful compile does not influence the returned boolean).  A later
step is only reached when every earlier step succeeded. -/
def checkSimdGeneric (co : CompileOutcome) (lo : LinkOutcome) (ro : RunOutcome) :
    Except PyExc Bool :=
  match co with
  | CompileOutcome.compileError => Except.ok false
  | CompileOutcome.success _ =>
    match lo with
    | LinkOutcome.linkError => Except.error PyExc.linkError
    | LinkOutcome.success =>
      match ro with
      | RunOutcome.exited code =>
        if code = 0 then Except.ok true
        else Except.ok true
      | RunOutcome.launchFailure => Except.error PyExc.osError

/-- os.remove: drops every entry equal to the given path from the
modelled set of files on disk. -/
def removeFile (fs : List String) (f : String) : List String :=
  fs.filter fun g => g != f

/-- The finally block of _check_simd_generic: os.remove(testfile),
then os.remove(obj) for every object file that is a file on disk,
then os.remove(binfile) if the binary is a file on disk. -/
def probeFinally (fs : List String) (testfile : String) (objs : List String)
    (binfile : String) : List String :=
  let fs1 := removeFile fs testfile
  let fs2 := objs.foldl (fun acc obj => if obj ∈ acc then removeFile acc obj else acc) fs1
  if binfile ∈ fs2 then removeFile fs2 binfile else fs2

/-- The whole probe as a transformer of the modelled file system: the
test source is written before the try block, a successful compile
creates its object files, a successful link creates the binary, and
the finally block runs on every exit path, caught or propagating.
Returns the result of the probe together with the files left on
disk. -/
def checkSimdGenericRun (fs0 : List String) (testfile binfile : String)
    (co : CompileOutcome) (lo : LinkOutcome) (ro : RunOutcome) :
    Except PyExc Bool × List String :=
  let fs1 := testfile :: fs0
  match co with
  | CompileOutcome.compileError =>
      (Except.ok false, probeFinally fs1 testfile [] binfile)
  | CompileOutcome.success objs =>
    let fs2 := objs ++ fs1
    match lo with
    | LinkOutcome.linkError =>
        (Except.error PyExc.linkError, probeFinally fs2 testfile objs binfile)
    | LinkOutcome.success =>
      let fs3 := binfile :: fs2
      match ro with
      | RunOutcome.exited _ =>
          (checkSimdGeneric co lo ro, probeFinally fs3 testfile objs binfile)
      | RunOutcome.launchFailure =>
          (Except.error PyExc.osError, probeFinally fs3 testfile objs binfile)

/-! ## Toolchain flag maps (build_ext._avx2_flags etc., lines 219-268)

Each helper branches on self.compiler.compiler_type, a distutils
string such as "msvc", "unix", "cygwin" or "mingw32"; the NEON helper
branches on the global TARGET_CPU instead. -/

/-- build_ext._avx2_flags (lines 219-222). -/
def avx2_flags (compiler_type : String) : List String :=
  if compiler_type == "msvc" then ["/arch:AVX2"] else ["-mavx", "-mavx2"]

/-- build_ext._sse2_flags (lines 235-238). -/
def sse2_flags (compiler_type : String) : List String :=
  if compiler_type == "msvc" then [] else ["-msse2"]

/-- build_ext._sse4_flags (lines 251-254). -/
def sse4_flags (compiler_type : String) : List String :=
  if compiler_type == "msvc" then ["/arch:AVX"] else ["-msse4.1"]

/-- build_ext._neon_flags (lines 267-268): the flag is only needed on
32-bit arm; on every other architecture, aarch64 included, the list
is empty because the feature is on by default there. -/
def neon_flags (cpu : TargetCpu) : List String :=
  if cpu = TargetCpu.arm then ["-mfpu=neon"] else []

/-! ## Toggles, probing phase and variant selection
(build_ext.finalize_options lines 147-158 and
build_ext.build_extensions lines 392-425) -/

/-- The four user-facing disable options of the build_ext command
(initialize_options lines 140-145). -/
structure Toggles where
  disable_avx2 : Bool
  disable_sse2 : Bool
  disable_sse4 : Bool
  disable_neon : Bool
deriving DecidableEq, Repr

/-- The _simd_disabled dictionary built in finalize_options
(lines 153-158). -/
def simdDisabled (t : Toggles) : Simd → Bool
  | Simd.AVX2 => t.disable_avx2
  | Simd.SSE2 => t.disable_sse2
  | Simd.SSE4 => t.disable_sse4
  | Simd.NEON => t.disable_neon

/-- The sequence of _check_* probe invocations actually performed by
build_extensions (lines 392-413), in source order: on x86 the AVX2,
SSE4 and SSE2 probes run unless their toggle disables them (the and
operator short-circuits, so a disabled extension is never probed); on
arm or aarch64 only the NEON probe may run; on every other target no
probe runs at all. -/
def probesInvoked (cpu : TargetCpu) (t : Toggles) : List Simd :=
  match cpu with
  | TargetCpu.x86 =>
      (if t.disable_avx2 then [] else [Simd.AVX2])
        ++ (if t.disable_sse4 then [] else [Simd.SSE4])
        ++ (if t.disable_sse2 then [] else [Simd.SSE2])
  | TargetCpu.arm => if t.disable_neon then [] else [Simd.NEON]
  | TargetCpu.aarch64 => if t.disable_neon then [] else [Simd.NEON]
  | _ => []

/-- The _simd_supported dictionary after the probing phase of
build_extensions (lines 392-413): initialized all False in
finalize_options, an entry is set to True exactly when the matching
architecture branch is taken, the toggle does not disable the
extension, and the probe reports support.  The probe argument gives
the boolean the corresponding _check_* call would return. -/
def simdSupported (cpu : TargetCpu) (t : Toggles) (probe : Simd → Bool) :
    Simd → Bool
  | Simd.AVX2 =>
      match cpu with
      | TargetCpu.x86 => !t.disable_avx2 && probe Simd.AVX2
      | _ => false
  | Simd.SSE4 =>
      match cpu with
      | TargetCpu.x86 => !t.disable_sse4 && probe Simd.SSE4
      | _ => false
  | Simd.SSE2 =>
      match cpu with
      | TargetCpu.x86 => !t.disable_sse2 && probe Simd.SSE2
      | _ => false
  | Simd.NEON =>
      match cpu with
      | TargetCpu.arm => !t.disable_neon && probe Simd.NEON
      | TargetCpu.aarch64 => !t.disable_neon && probe Simd.NEON
      | _ => false

/-- A declared extension module: its dotted name and the optional
SIMD requirement recorded by Extension.__init__ via the requires
keyword (lines 28-32); the baseline module passes no requires
keyword, so the attribute defaults to None. -/
structure ExtDecl where
  name : String
  requires : Option Simd
deriving DecidableEq, Repr

/-- The ext_modules list passed to setuptools.setup
(lines 688-772), in declaration order. -/
def extModules : List ExtDecl :=
  [⟨"pyopal._opal_neon", some Simd.NEON⟩,
   ⟨"pyopal._opal_sse2", some Simd.SSE2⟩,
   ⟨"pyopal._opal_sse4", some Simd.SSE4⟩,
   ⟨"pyopal._opal_avx2", some Simd.AVX2⟩,
   ⟨"pyopal._opal", none⟩]

/-- The retention test of the selection loop (lines 417-423): an
extension is kept when it has no requirement, or when its required
extension is marked supported. -/
def requiresSat (supported : Simd → Bool) (d : ExtDecl) : Bool :=
  match d.requires with
  | none => true
  | some e => supported e

/-- The selection loop of build_extensions (lines 416-423): the
declared list is traversed in order and each retained extension is
appended, so the result is a filter of the declared list. -/
def filterExtensions (supported : Simd → Bool) (exts : List ExtDecl) : List ExtDecl :=
  exts.filter (requiresSat supported)

/-- The message of the RuntimeError raised when the selection loop
retains nothing (line 425), with MACHINE interpolated. -/
def emptyPlanMessage (machine : String) : String :=
  "Cannot build Opal for platform " ++ machine ++ ", no SIMD backend supported"

/-- The outputs of build_extensions that depend on the build options:
the two debug-dependent pieces of the cythonize arguments (annotate
is set only in debug mode, boundscheck and wraparound are switched
off only in release mode, lines 369-381) and the selected extension
list handed to cythonize (line 428). -/
structure BuildOutcome where
  cythonAnnotate : Bool
  cythonBoundscheckOff : Bool
  selected : List ExtDecl
deriving DecidableEq, Repr

/-- The probing and selection part of build_extensions
(lines 335-428) as a function of the host machine string, the
precomputed TARGET_CPU, the debug switch, the toggle set, the probe
results, and the declared extension list: the supported dictionary is
computed from the architecture-gated probes, the declared list is
filtered, and an empty result raises the RuntimeError of line 425
whose message interpolates MACHINE. -/
def buildExtensionsPlan (machine : String) (cpu : TargetCpu) (debug : Bool)
    (t : Toggles) (probe : Simd → Bool) (exts : List ExtDecl) :
    Except String BuildOutcome :=
  let selected := filterExtensions (simdSupported cpu t probe) exts
  if selected.isEmpty then Except.error (emptyPlanMessage machine)
  else Except.ok ⟨debug, !debug, selected⟩

/-! ## Per-variant compile arguments (build_ext.build_extension,
lines 283-312) -/

/-- The distutils compiler families treated as gcc-like by
build_extension. -/
def gccLike (compiler_type : String) : Bool :=
  compiler_type == "unix" || compiler_type == "cygwin" || compiler_type == "mingw32"

/-- The mutation of extra_compile_args and define_macros performed by
build_extension (lines 287-312) on one extension, as a function of
the compiler type, the debug switch and the host implementation name:
debug mode appends -g or /Z7 and the CYTHON_TRACE_NOGIL macro on
cpython, release mode appends CYTHON_WITHOUT_ASSERTIONS; then the
C++17 and warning flags, and the WIN32 macro under msvc. -/
def buildExtensionArgs (compiler_type : String) (debug : Bool)
    (implementation_name : String) (args0 : List String)
    (macros0 : List (String × Int)) : List String × List (String × Int) :=
  let args1 :=
    if debug then
      if gccLike compiler_type then args0 ++ ["-g"]
      else if compiler_type == "msvc" then args0 ++ ["/Z7"]
      else args0
    else args0
  let macros1 :=
    if debug then
      if implementation_name == "cpython" then macros0 ++ [("CYTHON_TRACE_NOGIL", 1)]
      else macros0
    else macros0 ++ [("CYTHON_WITHOUT_ASSERTIONS", 1)]
  let args2 :=
    if gccLike compiler_type then
      args1 ++ ["-funroll-loops", "-std=c++17", "-Wno-unused-variable",
        "-Wno-maybe-uninitialized", "-Wno-return-type"]
    else if compiler_type == "msvc" then args1 ++ ["/std:c17"]
    else args1
  let macros2 :=
    if compiler_type == "msvc" then macros1 ++ [("WIN32", 1)] else macros1
  (args2, macros2)

/-! ## The patch step (build_clib._patch_file, lines 454-470) -/

/-- The content transformation of build_clib._patch_file
(lines 454-470): when the patches directory holds a patch file named
after the base name of the input, the output is the input contents
with that patch applied, otherwise copy_file reproduces the input
contents unchanged.  The applyPatch argument stands for _apply_patch,
which is Modelled from the spec: _apply_patch is called at line 468
but is not defined anywhere in setup.py, and the spec describes it
only as applying a textual patch to the file, so it is kept abstract
here as an arbitrary total function from source contents and patch
text to patched contents.  The patches argument maps a base name to
the contents of patches/<basename>.patch when that patch file
exists. -/
def patch_file (applyPatch : String → String → String)
    (patches : String → Option String) (basename srcdata : String) : String :=
  match patches basename with
  | some p => applyPatch srcdata p
  | none => srcdata

/-! ## Helper lemmas -/

/-- Membership after one os.remove. -/
theorem mem_removeFile {fs : List String} {x f : String} :
    x ∈ removeFile fs f ↔ x ∈ fs ∧ x ≠ f := by
  simp [removeFile, List.mem_filter, bne_iff_ne]

/-- Membership after the object-file removal loop of the finally
block: anything still present was present before and is none of the
removed object files. -/
theorem mem_objRemovalLoop {objs : List String} {fs : List String} {x : String}
    (h : x ∈ objs.foldl
      (fun acc obj => if obj ∈ acc then removeFile acc obj else acc) fs) :
    x ∈ fs ∧ x ∉ objs := by
  induction objs generalizing fs with
  | nil => simpa using h
  | cons o os ih =>
    simp only [List.foldl_cons] at h
    obtain ⟨h1, h2⟩ := ih h
    by_cases ho : o ∈ fs
    · rw [if_pos ho] at h1
      rcases mem_removeFile.mp h1 with ⟨hx, hne⟩
      exact ⟨hx, by simp [List.mem_cons, hne, h2]⟩
    · rw [if_neg ho] at h1
      have hne : x ≠ o := fun he => ho (he ▸ h1)
      exact ⟨h1, by simp [List.mem_cons, hne, h2]⟩

/-- Anything present after the finally block of the probe is neither
the test source, nor one of the created object files, nor the
binary. -/
theorem mem_probeFinally {fs : List String} {t : String} {objs : List String}
    {b x : String} (h : x ∈ probeFinally fs t objs b) :
    x ≠ t ∧ x ∉ objs ∧ x ≠ b := by
  simp only [probeFinally] at h
  by_cases hb : b ∈ objs.foldl
      (fun acc obj => if obj ∈ acc then removeFile acc obj else acc)
      (removeFile fs t)
  · rw [if_pos hb] at h
    rcases mem_removeFile.mp h with ⟨h2, hxb⟩
    rcases mem_objRemovalLoop h2 with ⟨h1, hobj⟩
    rcases mem_removeFile.mp h1 with ⟨-, hxt⟩
    exact ⟨hxt, hobj, hxb⟩
  · rw [if_neg hb] at h
    rcases mem_objRemovalLoop h with ⟨h1, hobj⟩
    rcases mem_removeFile.mp h1 with ⟨-, hxt⟩
    exact ⟨hxt, hobj, fun he => hb (he ▸ h)⟩

/-- A supported extension was necessarily not disabled: every branch
of the probing phase that can set a supported entry to True is
guarded by the matching disable toggle. -/
theorem simdSupported_not_disabled (cpu : TargetCpu) (t : Toggles)
    (probe : Simd → Bool) (e : Simd)
    (h : simdSupported cpu t probe e = true) : simdDisabled t e = false := by
  cases e <;> cases cpu <;> simp_all [simdSupported, simdDisabled]

/-- Membership in the selection filter, for an extension with a
requirement. -/
theorem mem_filterExtensions {supported : Simd → Bool} {d : ExtDecl} {e : Simd}
    (hreq : d.requires = some e) (l : List ExtDecl) :
    d ∈ filterExtensions supported l ↔ d ∈ l ∧ supported e = true := by
  simp [filterExtensions, List.mem_filter, requiresSat, hreq]

/-! ## Claims -/

/-- C1 (counterexample): the claim says that a probe binary that
fails to launch because of an architecture mismatch yields
supported=true without propagating an exception; on the code, when
subprocess.run raises OSError, neither except clause matches, so the
probe does not return True but re-raises the OSError. -/
theorem c1_launch_failure_counterexample :
    checkSimdGeneric (CompileOutcome.success ["have_AVX2.o"]) LinkOutcome.success
        RunOutcome.launchFailure = Except.error PyExc.osError ∧
    checkSimdGeneric (CompileOutcome.success ["have_AVX2.o"]) LinkOutcome.success
        RunOutcome.launchFailure ≠ Except.ok true := by
  exact ⟨rfl, fun h => Except.noConfusion h⟩

/-- C1 (amended): a compile failure of the synthetic test program
makes the probe return supported=false; a test binary that launches
and exits nonzero (the cross-compilation heuristic, which also
covers a binary killed by an illegal-instruction signal) makes it
return supported=true, as does a successful run, and in those cases
no exception propagates to the caller; but a binary that fails to
launch at all raises OSError, which the probe does not catch and
re-raises after cleanup. -/
theorem c1_probe_outcomes (lo : LinkOutcome) (ro : RunOutcome)
    (objs : List String) (code : Int) :
    checkSimdGeneric CompileOutcome.compileError lo ro = Except.ok false ∧
    (code ≠ 0 →
      checkSimdGeneric (CompileOutcome.success objs) LinkOutcome.success
        (RunOutcome.exited code) = Except.ok true) ∧
    checkSimdGeneric (CompileOutcome.success objs) LinkOutcome.success
      (RunOutcome.exited 0) = Except.ok true ∧
    checkSimdGeneric (CompileOutcome.success objs) LinkOutcome.success
      RunOutcome.launchFailure = Except.error PyExc.osError := by
  refine ⟨rfl, ?_, ?_, rfl⟩
  · intro h
    simp [checkSimdGeneric]
  · simp [checkSimdGeneric]

/-- C1 (witness for the amended claim): the AVX2 probe on a binary
that exits with code 1 reports support. -/
theorem c1_probe_outcomes_witness :
    (1 : Int) ≠ 0 ∧
    checkSimdGeneric (CompileOutcome.success ["have_AVX2.o"]) LinkOutcome.success
      (RunOutcome.exited 1) = Except.ok true :=
  ⟨by decide,
   (c1_probe_outcomes LinkOutcome.success (RunOutcome.exited 1) ["have_AVX2.o"] 1).2.1
     (by decide)⟩

/-- C2: when the selection filter retains no extension the build
raises the RuntimeError of line 425, whose message interpolates the
host machine string; and whenever the build step succeeds the
selected list is nonempty - there is no successful outcome with zero
variants. -/
theorem c2_empty_plan_fatal (machine : String) (cpu : TargetCpu) (debug : Bool)
    (t : Toggles) (probe : Simd → Bool) (exts : List ExtDecl) :
    (filterExtensions (simdSupported cpu t probe) exts = [] →
      buildExtensionsPlan machine cpu debug t probe exts
        = Except.error (emptyPlanMessage machine)) ∧
    (∃ pre suf, emptyPlanMessage machine = pre ++ machine ++ suf) ∧
    (∀ out, buildExtensionsPlan machine cpu debug t probe exts = Except.ok out →
      out.selected ≠ []) := by
  refine ⟨?_, ⟨"Cannot build Opal for platform ", ", no SIMD backend supported", rfl⟩, ?_⟩
  · intro h
    simp [buildExtensionsPlan, h]
  · intro out hout
    simp only [buildExtensionsPlan] at hout
    by_cases h : (filterExtensions (simdSupported cpu t probe) exts).isEmpty
    · rw [if_pos h] at hout
      exact Except.noConfusion hout
    · rw [if_neg h] at hout
      cases hout
      intro hsel
      exact h (by simp_all)

/-- C2 (witness): with every toggle disabled and a declared list
holding only the NEON variant, the filter is empty and the build
fails with the message naming the machine. -/
theorem c2_empty_plan_fatal_witness :
    buildExtensionsPlan "x86_64" TargetCpu.x86 false ⟨true, true, true, true⟩
        (fun _ => true) [⟨"pyopal._opal_neon", some Simd.NEON⟩]
      = Except.error (emptyPlanMessage "x86_64") :=
  (c2_empty_plan_fatal "x86_64" TargetCpu.x86 false ⟨true, true, true, true⟩
    (fun _ => true) [⟨"pyopal._opal_neon", some Simd.NEON⟩]).1 rfl

/-- C3: a disabled extension never appears as a satisfied requirement
- its variant is filtered out whatever the probe would have said -
and a conditional variant of the declared list is selected exactly
when its extension is not disabled and the capability dictionary
marks it supported. -/
theorem c3_toggle_overrides (cpu : TargetCpu) (t : Toggles) (probe : Simd → Bool)
    (d : ExtDecl) (e : Simd) (hreq : d.requires = some e) :
    (simdDisabled t e = true →
      d ∉ filterExtensions (simdSupported cpu t probe) extModules) ∧
    (d ∈ extModules →
      (d ∈ filterExtensions (simdSupported cpu t probe) extModules ↔
        simdDisabled t e = false ∧ simdSupported cpu t probe e = true)) := by
  constructor
  · intro hdis hd
    rcases (mem_filterExtensions hreq extModules).mp hd with ⟨-, hsup⟩
    have hnd := simdSupported_not_disabled cpu t probe e hsup
    rw [hdis] at hnd
    exact Bool.noConfusion hnd
  · intro hd
    rw [mem_filterExtensions hreq extModules]
    constructor
    · rintro ⟨-, hsup⟩
      exact ⟨simdSupported_not_disabled cpu t probe e hsup, hsup⟩
    · rintro ⟨-, hsup⟩
      exact ⟨hd, hsup⟩

/-- C3 (witness): on aarch64 with NEON disabled and a probe that
would report support, the NEON variant is still filtered out. -/
theorem c3_toggle_overrides_witness :
    (⟨"pyopal._opal_neon", some Simd.NEON⟩ : ExtDecl) ∉
      filterExtensions
        (simdSupported TargetCpu.aarch64 ⟨false, false, false, true⟩ (fun _ => true))
        extModules :=
  (c3_toggle_overrides TargetCpu.aarch64 ⟨false, false, false, true⟩ (fun _ => true)
    ⟨"pyopal._opal_neon", some Simd.NEON⟩ Simd.NEON rfl).1 rfl

/-- C4: the probing phase is architecture gated - on an x86 host the
NEON probe is never among the invoked probes, on an arm or aarch64
host only the NEON probe can be invoked, and on any other target
family no probe is invoked at all. -/
theorem c4_arch_gated_probes (cpu : TargetCpu) (t : Toggles) :
    Simd.NEON ∉ probesInvoked TargetCpu.x86 t ∧
    (∀ e ∈ probesInvoked TargetCpu.arm t, e = Simd.NEON) ∧
    (∀ e ∈ probesInvoked TargetCpu.aarch64 t, e = Simd.NEON) ∧
    (cpu ≠ TargetCpu.x86 → cpu ≠ TargetCpu.arm → cpu ≠ TargetCpu.aarch64 →
      probesInvoked cpu t = []) := by
  obtain ⟨a, b, c, d⟩ := t
  refine ⟨?_, ?_, ?_, ?_⟩ <;>
    cases cpu <;> cases a <;> cases b <;> cases c <;> cases d <;> decide

/-- C4 (witness): on a ppc host no probe is invoked. -/
theorem c4_arch_gated_probes_witness :
    probesInvoked TargetCpu.ppc ⟨false, false, false, false⟩ = [] :=
  (c4_arch_gated_probes TargetCpu.ppc ⟨false, false, false, false⟩).2.2.2
    (by decide) (by decide) (by decide)

/-- C5: on an x86 host with all three probes reporting support and no
toggle set, the filter keeps exactly the sse2, sse4 and avx2 variants
together with the baseline, in declaration order, and drops the neon
variant; and the machine string x86_64 is indeed classified as
x86. -/
theorem c5_x86_full_plan :
    filterExtensions
        (simdSupported TargetCpu.x86 ⟨false, false, false, false⟩ (fun _ => true))
        extModules
      = [⟨"pyopal._opal_sse2", some Simd.SSE2⟩,
         ⟨"pyopal._opal_sse4", some Simd.SSE4⟩,
         ⟨"pyopal._opal_avx2", some Simd.AVX2⟩,
         ⟨"pyopal._opal", none⟩] ∧
    (⟨"pyopal._opal_neon", some Simd.NEON⟩ : ExtDecl) ∉
      filterExtensions
        (simdSupported TargetCpu.x86 ⟨false, false, false, false⟩ (fun _ => true))
        extModules ∧
    targetCpuOf "x86_64" = TargetCpu.x86 := by
  decide

/-- C6: for every vendored file handled by the patch step, if the
patches directory holds a patch named after the base name of the
file, the output is the input contents with that patch applied, and
otherwise the output is the unmodified input contents; the step is a
total transformation in both cases, for every possible patch
application function. -/
theorem c6_patch_step (applyPatch : String → String → String)
    (patches : String → Option String) (basename srcdata : String) :
    (∀ p, patches basename = some p →
      patch_file applyPatch patches basename srcdata = applyPatch srcdata p) ∧
    (patches basename = none →
      patch_file applyPatch patches basename srcdata = srcdata) := by
  constructor
  · intro p hp
    simp [patch_file, hp]
  · intro hp
    simp [patch_file, hp]

/-- C6 (witness): with a patch registered for opal.cpp and patch
application modelled as appending the patch text, the step applies
the patch. -/
theorem c6_patch_step_witness :
    patch_file (fun s p => s ++ p)
        (fun b => if b == "opal.cpp" then some "PATCH" else none)
        "opal.cpp" "SRC"
      = "SRC" ++ "PATCH" :=
  (c6_patch_step (fun s p => s ++ p)
    (fun b => if b == "opal.cpp" then some "PATCH" else none)
    "opal.cpp" "SRC").1 "PATCH" (by decide)

/-- C7: for fixed probe outcomes and toggles, the debug and release
builds select the same extension list - the debug switch changes
other outputs of the planning step (the annotate and boundscheck
cython settings) and the per-variant compile arguments and macros
(such as -g, /Z7 and CYTHON_WITHOUT_ASSERTIONS), but never which
extensions pass the selection filter. -/
theorem c7_debug_release_same_selection (machine : String) (cpu : TargetCpu)
    (t : Toggles) (probe : Simd → Bool) (exts : List ExtDecl) (d1 d2 : Bool) :
    Except.map BuildOutcome.selected (buildExtensionsPlan machine cpu d1 t probe exts)
      = Except.map BuildOutcome.selected
          (buildExtensionsPlan machine cpu d2 t probe exts) ∧
    buildExtensionArgs "unix" true "cpython" [] [] =
      (["-g", "-funroll-loops", "-std=c++17", "-Wno-unused-variable",
        "-Wno-maybe-uninitialized", "-Wno-return-type"],
       [("CYTHON_TRACE_NOGIL", 1)]) ∧
    buildExtensionArgs "unix" false "cpython" [] [] =
      (["-funroll-loops", "-std=c++17", "-Wno-unused-variable",
        "-Wno-maybe-uninitialized", "-Wno-return-type"],
       [("CYTHON_WITHOUT_ASSERTIONS", 1)]) ∧
    buildExtensionArgs "msvc" true "cpython" [] [] =
      (["/Z7", "/std:c17"], [("CYTHON_TRACE_NOGIL", 1), ("WIN32", 1)]) := by
  refine ⟨?_, by decide, by decide, by decide⟩
  by_cases h : (filterExtensions (simdSupported cpu t probe) exts).isEmpty
  · simp [buildExtensionsPlan, h]
  · simp [buildExtensionsPlan, h, Except.map]

/-- C7 (witness): on x86 with all probes passing, the debug and
release selections coincide. -/
theorem c7_debug_release_same_selection_witness :
    Except.map BuildOutcome.selected
        (buildExtensionsPlan "x86_64" TargetCpu.x86 true ⟨false, false, false, false⟩
          (fun _ => true) extModules)
      = Except.map BuildOutcome.selected
          (buildExtensionsPlan "x86_64" TargetCpu.x86 false ⟨false, false, false, false⟩
            (fun _ => true) extModules) :=
  (c7_debug_release_same_selection "x86_64" TargetCpu.x86 ⟨false, false, false, false⟩
    (fun _ => true) extModules true false).1

/-- C8: the flag helpers are pure case analyses - under msvc the AVX2
flag is /arch:AVX2, the SSE4 flag is /arch:AVX and SSE2 needs no flag
at all; under every non-msvc (gcc or clang like) compiler they give
-mavx -mavx2, -msse4.1 and -msse2; and the NEON helper yields
-mfpu=neon only on 32-bit arm, returning the empty list on aarch64
where the feature is on by default. -/
theorem c8_flag_map (compiler_type : String) (h : compiler_type ≠ "msvc") :
    avx2_flags "msvc" = ["/arch:AVX2"] ∧
    sse4_flags "msvc" = ["/arch:AVX"] ∧
    sse2_flags "msvc" = [] ∧
    avx2_flags compiler_type = ["-mavx", "-mavx2"] ∧
    sse4_flags compiler_type = ["-msse4.1"] ∧
    sse2_flags compiler_type = ["-msse2"] ∧
    neon_flags TargetCpu.arm = ["-mfpu=neon"] ∧
    neon_flags TargetCpu.aarch64 = [] := by
  have hb : (compiler_type == "msvc") = false := by
    simpa using h
  refine ⟨by decide, by decide, by decide, ?_, ?_, ?_, by decide, by decide⟩ <;>
    simp [avx2_flags, sse4_flags, sse2_flags, hb]

/-- C8 (witness): the unix compiler family receives the gcc-style
AVX2 flags. -/
theorem c8_flag_map_witness :
    avx2_flags "unix" = ["-mavx", "-mavx2"] :=
  (c8_flag_map "unix" (by decide)).2.2.2.1

/-- C9: on every exit path of the probe - compile failure, link
failure, run with any exit code, or launch failure - the finally
block removes the generated test source, every object file created by
the compile step, and the test binary, before the probe returns or
re-raises. -/
theorem c9_probe_cleanup (fs0 : List String) (testfile binfile : String)
    (co : CompileOutcome) (lo : LinkOutcome) (ro : RunOutcome) :
    testfile ∉ (checkSimdGenericRun fs0 testfile binfile co lo ro).2 ∧
    binfile ∉ (checkSimdGenericRun fs0 testfile binfile co lo ro).2 ∧
    (∀ objs, co = CompileOutcome.success objs →
      ∀ obj ∈ objs, obj ∉ (checkSimdGenericRun fs0 testfile binfile co lo ro).2) := by
  cases co with
  | compileError =>
    refine ⟨?_, ?_, ?_⟩
    · exact fun h => (mem_probeFinally h).1 rfl
    · exact fun h => (mem_probeFinally h).2.2 rfl
    · intro objs heq
      exact CompileOutcome.noConfusion heq
  | success objs0 =>
    cases lo with
    | linkError =>
      refine ⟨?_, ?_, ?_⟩
      · exact fun h => (mem_probeFinally h).1 rfl
      · exact fun h => (mem_probeFinally h).2.2 rfl
      · intro objs heq obj ho h
        cases heq
        exact (mem_probeFinally h).2.1 ho
    | success =>
      cases ro with
      | exited code =>
        refine ⟨?_, ?_, ?_⟩
        · exact fun h => (mem_probeFinally h).1 rfl
        · exact fun h => (mem_probeFinally h).2.2 rfl
        · intro objs heq obj ho h
          cases heq
          exact (mem_probeFinally h).2.1 ho
      | launchFailure =>
        refine ⟨?_, ?_, ?_⟩
        · exact fun h => (mem_probeFinally h).1 rfl
        · exact fun h => (mem_probeFinally h).2.2 rfl
        · intro objs heq obj ho h
          cases heq
          exact (mem_probeFinally h).2.1 ho

/-- C9 (witness): after a probe whose binary fails to launch, the
created object file is gone from the modelled file system. -/
theorem c9_probe_cleanup_witness :
    "have_AVX2.o" ∉
      (checkSimdGenericRun [] "have_AVX2.c" "have_AVX2"
        (CompileOutcome.success ["have_AVX2.o"]) LinkOutcome.success
        RunOutcome.launchFailure).2 :=
  (c9_probe_cleanup [] "have_AVX2.c" "have_AVX2"
      (CompileOutcome.success ["have_AVX2.o"]) LinkOutcome.success
      RunOutcome.launchFailure).2.2
    ["have_AVX2.o"] rfl "have_AVX2.o" (by decide)

/-- C10: the baseline module pyopal._opal is declared with no
requires keyword, so the selection filter keeps it under every
supported dictionary; the declared list therefore never filters to
empty and the empty-plan RuntimeError of line 425 is unreachable for
the declared extensions, whatever the machine, the toggles and the
probe outcomes. -/
theorem c10_baseline_unconditional (supported : Simd → Bool) (machine : String)
    (cpu : TargetCpu) (debug : Bool) (t : Toggles) (probe : Simd → Bool) :
    (⟨"pyopal._opal", none⟩ : ExtDecl) ∈ filterExtensions supported extModules ∧
    filterExtensions supported extModules ≠ [] ∧
    ∃ out, buildExtensionsPlan machine cpu debug t probe extModules = Except.ok out ∧
      out.selected ≠ [] := by
  have key : ∀ s : Simd → Bool,
      (⟨"pyopal._opal", none⟩ : ExtDecl) ∈ filterExtensions s extModules := by
    intro s
    simp [filterExtensions, List.mem_filter, extModules, requiresSat]
  have hne : ∀ s : Simd → Bool, (filterExtensions s extModules).isEmpty = false := by
    intro s
    cases hfe : filterExtensions s extModules with
    | nil =>
      have hk := key s
      rw [hfe] at hk
      exact absurd hk (List.not_mem_nil _)
    | cons a l => rfl
  refine ⟨key supported, ?_, ?_⟩
  · intro h
    have hk := key supported
    rw [h] at hk
    exact absurd hk (List.not_mem_nil _)
  · refine ⟨⟨debug, !debug, filterExtensions (simdSupported cpu t probe) extModules⟩, ?_, ?_⟩
    · simp [buildExtensionsPlan, hne (simdSupported cpu t probe)]
    · show filterExtensions (simdSupported cpu t probe) extModules ≠ []
      intro h
      have hk := key (simdSupported cpu t probe)
      rw [h] at hk
      exact absurd hk (List.not_mem_nil _)

/-- C10 (witness): even with a supported dictionary that rejects
every extension, the baseline stays selected. -/
theorem c10_baseline_unconditional_witness :
    (⟨"pyopal._opal", none⟩ : ExtDecl) ∈ filterExtensions (fun _ => false) extModules :=
  (c10_baseline_unconditional (fun _ => false) "riscv64" TargetCpu.unknown false
    ⟨false, false, false, false⟩ (fun _ => false)).1

end PyopalSetup
